import Mathlib

/-!
Verification of the AI fitness-coach orchestration service.

The definitions below are shallow embeddings of the server-side orchestration
code: the progress/workout statistics aggregator, the user-profile and
fitness-plan schema validators, the prompt builder, the plan-generation graph,
the chat graph with its HTTP handler, and the exercise-video search tool.
JavaScript numbers are modelled as rationals; absent (undefined/null) values
as Option; thrown errors as Except.error. External effects (the generative-AI
completion, the durable write, the video-search HTTP call) are passed in as
explicit outcome parameters, so every pipeline is a total function of its
inputs and of those outcomes.
-/

set_option maxRecDepth 8000

deriving instance DecidableEq for Except

/-- Rounding to one decimal, as in the source idiom Number(x.toFixed(1)).
ECMAScript toFixed picks the integer n minimising the distance of n / 10 to x,
preferring the larger n on ties, which is floor of 10 x + 1 / 2.
Rat.floor is used rather than the Int.floor notation so that the definition
evaluates by kernel reduction; the two agree (ratFloor_eq_intFloor). -/
def round1 (q : ℚ) : ℚ := ((q * 10 + 1/2).floor : ℤ) / 10

/-! ## Progress statistics aggregator (server/src/lib/progressStats.mjs) -/

/-- One body-composition entry as consumed by summarizeProgress.  The numeric
fields are already the result of parseNumber, hence Option rationals. -/
structure ProgressEntry where
  weight : Option ℚ
  bodyFat : Option ℚ
  muscleMass : Option ℚ
deriving Repr, DecidableEq

structure ProgressSummary where
  startWeight : Option ℚ
  latestWeight : Option ℚ
  weightDelta : Option ℚ
  averageBodyFat : Option ℚ
  averageMuscleMass : Option ℚ
deriving Repr, DecidableEq

/-- summarizeProgress from progressStats.mjs.  The entries arrive ordered by
recordedAt ascending; entries[0] is the oldest and entries[len - 1] the
newest.  The .filter(typeof value === number) steps become filterMap. -/
def summarizeProgress : List ProgressEntry → ProgressSummary
  | [] => ⟨none, none, none, none, none⟩
  | e :: rest =>
    let startWeight := e.weight
    let latestWeight := ((e :: rest).getLast (List.cons_ne_nil e rest)).weight
    let weightDelta :=
      match startWeight, latestWeight with
      | some s, some l => some (round1 (l - s))
      | _, _ => none
    let bodyFatValues := (e :: rest).filterMap (fun x => x.bodyFat)
    let averageBodyFat :=
      if 0 < bodyFatValues.length then
        some (round1 (bodyFatValues.sum / bodyFatValues.length)) else none
    let muscleValues := (e :: rest).filterMap (fun x => x.muscleMass)
    let averageMuscleMass :=
      if 0 < muscleValues.length then
        some (round1 (muscleValues.sum / muscleValues.length)) else none
    ⟨startWeight, latestWeight, weightDelta, averageBodyFat, averageMuscleMass⟩

/-- One workout-log entry as consumed by summarizeWorkouts (newest first). -/
structure WorkoutLog where
  weekLabel : Option String
  completed : Bool
deriving Repr, DecidableEq

structure WeekRow where
  weekLabel : String
  total : ℕ
  completed : ℕ
  completionRate : ℚ
deriving Repr, DecidableEq

structure WorkoutSummary where
  totalSessions : ℕ
  completedSessions : ℕ
  completionRate : ℚ
  recentStreak : ℕ
  weekBreakdown : List WeekRow
deriving Repr, DecidableEq

/-- The for-loop computing recentStreak: walk the logs from the front,
count completed entries, stop at the first incomplete one. -/
def recentStreakOf : List WorkoutLog → ℕ
  | [] => 0
  | log :: rest => if log.completed then recentStreakOf rest + 1 else 0

/-- One step of the logs.reduce accumulator building weekStats: JavaScript
object keys keep insertion order, so the accumulator is an association list
and a fresh key is appended at the end. -/
def bumpWeek (acc : List (String × ℕ × ℕ)) (key : String) (completedFlag : Bool) :
    List (String × ℕ × ℕ) :=
  match acc with
  | [] => [(key, 1, if completedFlag then 1 else 0)]
  | (k, t, c) :: rest =>
    if k = key then (k, t + 1, if completedFlag then c + 1 else c) :: rest
    else (k, t, c) :: bumpWeek rest key completedFlag

/-- logs.reduce building per-week totals, key log.weekLabel with the
string Recent as the fallback. -/
def weekStats (logs : List WorkoutLog) : List (String × ℕ × ℕ) :=
  logs.foldl (fun acc log => bumpWeek acc (log.weekLabel.getD "Recent") log.completed) []

/-- summarizeWorkouts from progressStats.mjs. -/
def summarizeWorkouts (logs : List WorkoutLog) : WorkoutSummary :=
  if logs.isEmpty then ⟨0, 0, 0, 0, []⟩
  else
    let totalSessions := logs.length
    let completedSessions := (logs.filter (fun log => log.completed)).length
    let completionRate :=
      if 0 < totalSessions then
        round1 (((completedSessions : ℚ) / (totalSessions : ℚ)) * 100) else 0
    let recentStreak := recentStreakOf logs
    let weekBreakdown := (weekStats logs).map (fun x =>
      { weekLabel := x.1, total := x.2.1, completed := x.2.2,
        completionRate :=
          if 0 < x.2.1 then round1 (((x.2.2 : ℚ) / (x.2.1 : ℚ)) * 100) else 0 })
    ⟨totalSessions, completedSessions, completionRate, recentStreak, weekBreakdown⟩

/-! ## User profile schema (server/src/schemas/userProfileSchema.mjs) and the
sanitize node of the plan graph (server/src/graphs/planGraph.mjs) -/

/-- The raw profile-like structure handed to the sanitize node.  Fields that
may be absent in the incoming JSON are Option. -/
structure RawProfile where
  goal : Option String
  height : Option ℚ
  weight : Option ℚ
  bodyFat : Option ℚ
  healthConditions : Option String
  workoutPreference : Option String
  availableEquipment : Option String
deriving Repr, DecidableEq

/-- A profile accepted by UserProfileSchema. -/
structure UserProfile where
  goal : String
  height : ℚ
  weight : ℚ
  bodyFat : Option ℚ
  healthConditions : Option String
  workoutPreference : String
  availableEquipment : Option String
deriving Repr, DecidableEq

/-- zod z.string().min(1) on the goal field (required). -/
def checkGoal : Option String → List String
  | none => ["goal: required"]
  | some g => if 1 ≤ g.length then [] else ["goal: too short"]

/-- zod z.number().positive() on a required numeric field. -/
def checkPositiveNumber (field : String) : Option ℚ → List String
  | none => [field ++ ": required"]
  | some v => if 0 < v then [] else [field ++ ": must be positive"]

/-- zod z.number().nonnegative().max(100).optional() on bodyFat. -/
def checkBodyFat : Option ℚ → List String
  | none => []
  | some v =>
    (if 0 ≤ v then [] else ["bodyFat: must be nonnegative"]) ++
    (if v ≤ 100 then [] else ["bodyFat: must be at most 100"])

/-- zod z.enum home gym with default home: absent is filled by the default,
any other present value is an enum violation. -/
def checkWorkoutPreference : Option String → List String
  | none => []
  | some s => if s = "home" || s = "gym" then [] else ["workoutPreference: invalid enum value"]

/-- All issues UserProfileSchema.parse would report, in field order. -/
def profileIssues (raw : RawProfile) : List String :=
  checkGoal raw.goal ++
  checkPositiveNumber "height" raw.height ++
  checkPositiveNumber "weight" raw.weight ++
  checkBodyFat raw.bodyFat ++
  checkWorkoutPreference raw.workoutPreference

/-- UserProfileSchema.parse: succeeds exactly when no field has an issue,
otherwise throws a ZodError listing every issue (the error branch). -/
def parseUserProfile (raw : RawProfile) : Except (List String) UserProfile :=
  match raw.goal, raw.height, raw.weight with
  | some g, some hv, some wv =>
    let issues := profileIssues raw
    if issues.isEmpty then
      .ok ⟨g, hv, wv, raw.bodyFat, raw.healthConditions,
           raw.workoutPreference.getD "home", raw.availableEquipment⟩
    else .error issues
  | _, _, _ => .error (profileIssues raw)

/-- The JavaScript pattern s?.trim() || undefined: trim an optional string
and turn an empty result into undefined. -/
def trimToUndefined : Option String → Option String
  | none => none
  | some s => let t := s.trim; if t = "" then none else some t

/-- sanitizeProfileNode of the plan graph: coerce goal to a trimmed string
with the weightLoss fallback, normalise the optional free-text fields, then
validate with UserProfileSchema. -/
def sanitizeProfileNode (raw : RawProfile) : Except (List String) UserProfile :=
  parseUserProfile
    { raw with
      goal := some ((raw.goal.getD "weightLoss").trim)
      healthConditions := trimToUndefined raw.healthConditions
      availableEquipment := trimToUndefined raw.availableEquipment }

/-! ## Prompt builder (buildPromptNode of server/src/graphs/planGraph.mjs) -/

/-- The fixed goalLabels lookup table. -/
def goalLabels : String → Option String
  | "weightLoss" => some "Weight Loss"
  | "muscleGain" => some "Muscle Gain"
  | "rehab" => some "Rehabilitation & Mobility"
  | _ => none

/-- Abstraction of JavaScript number-to-string conversion inside template
literals; any fixed function of the number keeps the builder deterministic. -/
def numText (q : ℚ) : String := toString q

/-- buildPromptNode: seven fixed lines joined by newline. -/
def buildPromptNode (profile : UserProfile) : String :=
  String.intercalate "\n" [
    "Primary Goal: " ++ ((goalLabels profile.goal).getD profile.goal),
    "Height: " ++ numText profile.height ++ " cm",
    "Weight: " ++ numText profile.weight ++ " kg",
    "Body Fat: " ++ (match profile.bodyFat with
      | some b => numText b
      | none => "Not provided") ++ "%",
    "Health Considerations: " ++ profile.healthConditions.getD "None",
    "Workout Preference: " ++
      (if profile.workoutPreference = "home" then "At home" else "At the gym"),
    "Equipment: " ++ profile.availableEquipment.getD "Basic bodyweight"]

/-- The last six lines of the prompt, used to state how the first line is
resolved from the goal lookup table. -/
def promptTail (profile : UserProfile) : String :=
  String.intercalate "\n" [
    "Height: " ++ numText profile.height ++ " cm",
    "Weight: " ++ numText profile.weight ++ " kg",
    "Body Fat: " ++ (match profile.bodyFat with
      | some b => numText b
      | none => "Not provided") ++ "%",
    "Health Considerations: " ++ profile.healthConditions.getD "None",
    "Workout Preference: " ++
      (if profile.workoutPreference = "home" then "At home" else "At the gym"),
    "Equipment: " ++ profile.availableEquipment.getD "Basic bodyweight"]

/-! ## Fitness plan schema (server/src/schemas/fitnessPlanSchema.mjs).
Each zod object becomes a structure; each chain of zod checks becomes a
Boolean validator.  z.number().int() is reflected by typing the field with ℤ;
z.array(...).min(1) is a length bound; snacks is the one optional meal. -/

structure Exercise where
  name : String
  sets : ℤ
  reps : String
  rest : String
  description : String
deriving Repr, DecidableEq

def validExercise (e : Exercise) : Bool :=
  decide (1 ≤ e.name.length) && decide (0 < e.sets) &&
  decide (1 ≤ e.reps.length) && decide (1 ≤ e.rest.length) &&
  decide (1 ≤ e.description.length)

structure WorkoutDay where
  day : String
  focus : String
  exercises : List Exercise
deriving Repr, DecidableEq

def validWorkoutDay (d : WorkoutDay) : Bool :=
  decide (1 ≤ d.day.length) && decide (1 ≤ d.focus.length) &&
  decide (1 ≤ d.exercises.length) && d.exercises.all validExercise

structure Meal where
  name : String
  calories : ℤ
  description : String
  recipe : String
deriving Repr, DecidableEq

def validMeal (m : Meal) : Bool :=
  decide (1 ≤ m.name.length) && decide (0 ≤ m.calories) &&
  decide (1 ≤ m.description.length) && decide (1 ≤ m.recipe.length)

structure Meals where
  breakfast : Meal
  lunch : Meal
  dinner : Meal
  snacks : Option Meal
deriving Repr, DecidableEq

def validMeals (ms : Meals) : Bool :=
  validMeal ms.breakfast && validMeal ms.lunch && validMeal ms.dinner &&
  (match ms.snacks with
   | none => true
   | some s => validMeal s)

structure DailyTotal where
  calories : ℤ
  protein : String
  carbs : String
  fat : String
deriving Repr, DecidableEq

def validDailyTotal (t : DailyTotal) : Bool :=
  decide (0 ≤ t.calories) && decide (1 ≤ t.protein.length) &&
  decide (1 ≤ t.carbs.length) && decide (1 ≤ t.fat.length)

structure DietDay where
  day : String
  meals : Meals
  dailyTotal : DailyTotal
deriving Repr, DecidableEq

def validDietDay (d : DietDay) : Bool :=
  decide (1 ≤ d.day.length) && validMeals d.meals && validDailyTotal d.dailyTotal

structure FitnessPlan where
  workoutPlan : List WorkoutDay
  dietPlan : List DietDay
deriving Repr, DecidableEq

/-- FitnessPlanSchema: both arrays must be non-empty and every element must
validate. -/
def validFitnessPlan (p : FitnessPlan) : Bool :=
  decide (1 ≤ p.workoutPlan.length) && p.workoutPlan.all validWorkoutDay &&
  decide (1 ≤ p.dietPlan.length) && p.dietPlan.all validDietDay

/-! ## Plan-generation graph (server/src/graphs/planGraph.mjs).
The graph is the strict sequence sanitizeProfile, buildPrompt, generatePlan,
persistPlan.  The two external effects are passed as outcome parameters: the
structured completion from the model call, and the result of the Firestore
set with merge in persistPlanNode.  A node that throws aborts the invoke, so
the run is an Except computation. -/

inductive PlanError where
  | validation (issues : List String)
  | upstream (msg : String)
  | persistence (msg : String)
deriving Repr, DecidableEq

/-- generatePlanNode: an upstream failure propagates; a returned completion
is validated once more against FitnessPlanSchema and a schema failure also
throws. -/
def generatePlanNode (completion : Except String FitnessPlan) :
    Except PlanError FitnessPlan :=
  match completion with
  | .error e => .error (.upstream e)
  | .ok response =>
    if validFitnessPlan response then .ok response
    else .error (.upstream "plan failed schema validation")

/-- persistPlanNode: writes plan and updatedAt with docRef.set; there is no
try/catch around the await, so a failed write throws out of the node. -/
def persistPlanNode (write : Except String Unit) : Except PlanError Unit :=
  match write with
  | .ok _ => .ok ()
  | .error e => .error (.persistence e)

/-- runPlanGraph: the guard on memberId, then the compiled linear graph; the
result handed to the HTTP handler is the plan field of the final state. -/
def runPlanGraph (memberId : String) (raw : RawProfile)
    (completion : Except String FitnessPlan) (write : Except String Unit) :
    Except PlanError FitnessPlan :=
  if memberId = "" then .error (.validation ["memberId is required to generate a plan."])
  else
    match sanitizeProfileNode raw with
    | .error issues => .error (.validation issues)
    | .ok profile =>
      let _prompt := buildPromptNode profile
      match generatePlanNode completion with
      | .error e => .error e
      | .ok plan =>
        match persistPlanNode write with
        | .error e => .error e
        | .ok _ => .ok plan

/-! ## Chat graph (server/src/graphs/chatGraph.mjs) and the chat endpoint of
server/src/index.mjs.  The external model is an explicit parameter: the graph
gives it the message list (and the memberId the tools are bound to) and
appends its reply. -/

structure ChatMsg where
  role : String
  content : String
deriving Repr, DecidableEq

def SYSTEM_PROMPT : String :=
  "You are AI Fitness Coach, a friendly bilingual assistant that understands Korean and English."

/-- runChatGraph: reject an empty message, otherwise prepend the system
prompt, append the user message, run the single callModel node and return the
latest message together with the full message list. -/
def runChatGraph (modelFn : Option String → List ChatMsg → ChatMsg)
    (memberId : Option String) (message : String) (history : List ChatMsg) :
    Except String (ChatMsg × List ChatMsg) :=
  if message = "" then .error "message is required for chat."
  else
    let messages := { role := "system", content := SYSTEM_PROMPT } ::
      (history ++ [{ role := "user", content := message }])
    let response := modelFn memberId messages
    .ok (response, messages ++ [response])

/-- A JSON value, for the untyped request body fields of the chat endpoint. -/
inductive JsonVal where
  | null
  | bool (b : Bool)
  | num (q : ℚ)
  | str (s : String)
  | arr (items : List JsonVal)
  | obj (fields : List (String × JsonVal))

/-- JavaScript truthiness of a JSON value. -/
def truthy : JsonVal → Bool
  | .null => false
  | .bool b => b
  | .num q => decide (q ≠ 0)
  | .str s => decide (s ≠ "")
  | .arr _ => true
  | .obj _ => true

/-- Property access item.key: defined on objects, undefined elsewhere. -/
def jsonField : JsonVal → String → Option JsonVal
  | .obj fields, key => (fields.find? (fun f => decide (f.1 = key))).map (fun f => f.2)
  | _, _ => none

/-- typeof v === string, returning the string. -/
def asStr : Option JsonVal → Option String
  | some (.str s) => some s
  | _ => none

/-- The history normalisation in the chat handler: a non-array history is
replaced by the empty list; an array is filtered down to the truthy items
whose role and content are strings, which are then mapped to ChatMsg records
(the map is total on the filtered list, hence filterMap). -/
def normalizeHistory : JsonVal → List ChatMsg
  | .arr items =>
    (items.filter (fun item =>
        truthy item && (asStr (jsonField item "role")).isSome &&
        (asStr (jsonField item "content")).isSome)).filterMap
      (fun item =>
        match asStr (jsonField item "role"), asStr (jsonField item "content") with
        | some r, some c => some { role := r, content := c }
        | _, _ => none)
  | _ => []

inductive ChatHttpResult where
  | badRequest (error : String)
  | ok (reply : String) (messages : List ChatMsg)
  | serverError (error : String)
deriving Repr, DecidableEq

/-- The POST /api/coach/chat handler.  The message body field is modelled as
an absent or string value (the domain the claims range over); an absent or
empty message is falsy and yields the 400 branch before the graph runs.
Multi-part content flattening is omitted: ChatMsg content is already text. -/
def chatHandler (modelFn : Option String → List ChatMsg → ChatMsg)
    (memberId : Option String) (message : Option String) (history : JsonVal) :
    ChatHttpResult :=
  match message with
  | none => .badRequest "message is required"
  | some m =>
    if m = "" then .badRequest "message is required"
    else
      match runChatGraph modelFn memberId m (normalizeHistory history) with
      | .error e => .serverError e
      | .ok (response, messages) => .ok response.content messages

/-! ## Exercise video search (server/src/tools/searchExerciseVideos.mjs).
The upstream HTTP exchange is an outcome parameter: either a non-OK response
with status and body text, or an OK response with its items array. -/

structure VideoItem where
  title : Option String
  channelTitle : Option String
  videoId : Option String
  description : Option String
deriving Repr, DecidableEq

inductive UpstreamResult where
  | notOk (status : ℕ) (text : String)
  | okPayload (items : List VideoItem)
deriving Repr, DecidableEq

structure VideoResult where
  title : String
  channel : String
  url : Option String
  description : String
deriving Repr, DecidableEq

inductive SearchOutcome where
  | fail (error : String)
  | results (items : List VideoResult)
deriving Repr, DecidableEq

/-- searchExerciseVideos: missing API key, non-OK upstream response and empty
result sets are all turned into an error-string outcome; otherwise the items
are mapped to title/channel/url records. -/
def searchExerciseVideos (apiKey : Option String) (upstream : UpstreamResult) :
    SearchOutcome :=
  match apiKey with
  | none => .fail "YouTube API key missing"
  | some _ =>
    match upstream with
    | .notOk status text => .fail ("YouTube search failed (" ++ toString status ++ "): " ++ text)
    | .okPayload items =>
      if items.isEmpty then .fail "no results, try another keyword"
      else .results (items.map (fun item =>
        { title := item.title.getD "untitled"
          channel := item.channelTitle.getD "unknown channel"
          url := item.videoId.map (fun v => "https://www.youtube.com/watch?v=" ++ v)
          description := item.description.getD "" }))

/-- The func of the search tool handed to the model.  The Except return type
models the possibility of throwing into the tool-execution loop: the error
branch of searchExerciseVideos is returned as an ordinary string, so the
function only ever produces the ok constructor. -/
def searchVideosToolFunc (apiKey : Option String) (upstream : UpstreamResult) :
    Except String String :=
  match searchExerciseVideos apiKey upstream with
  | .fail e => .ok e
  | .results rs => .ok (String.intercalate "\n\n" (rs.map (fun r =>
      r.title ++ " (" ++ r.channel ++ ")\n" ++ r.url.getD "no link")))

/-! ## Concrete fixtures used by counterexamples and witnesses -/

/-- A profile-shaped input with every required field present and valid. -/
def sampleRawProfile : RawProfile :=
  { goal := some "weightLoss", height := some 175, weight := some 80,
    bodyFat := none, healthConditions := none,
    workoutPreference := some "home", availableEquipment := none }

/-- The validated profile sanitizeProfileNode produces from
sampleRawProfile. -/
def sampleProfile : UserProfile :=
  { goal := "weightLoss", height := 175, weight := 80, bodyFat := none,
    healthConditions := none, workoutPreference := "home",
    availableEquipment := none }

/-- A validated profile whose goal is not in the lookup table. -/
def customGoalProfile : UserProfile :=
  { goal := "crossfit", height := 180, weight := 90, bodyFat := some 18,
    healthConditions := none, workoutPreference := "gym",
    availableEquipment := some "dumbbells" }

def sampleExercise : Exercise :=
  { name := "Squat", sets := 3, reps := "10", rest := "60s",
    description := "Bodyweight squat" }

def sampleMeal : Meal :=
  { name := "Oatmeal", calories := 350, description := "Oats with milk",
    recipe := "Cook oats in milk" }

def sampleDietDay : DietDay :=
  { day := "Day 1",
    meals := { breakfast := sampleMeal, lunch := sampleMeal,
               dinner := sampleMeal, snacks := none },
    dailyTotal := { calories := 1050, protein := "90g", carbs := "120g",
                    fat := "35g" } }

/-- A plan in which every required field of every diet day is present and
every check of FitnessPlanSchema passes. -/
def samplePlan : FitnessPlan :=
  { workoutPlan := [{ day := "Day 1", focus := "Legs",
                      exercises := [sampleExercise] }],
    dietPlan := [sampleDietDay] }

/-! ## Helper lemmas -/

theorem ratFloor_eq_intFloor (a : ℚ) : a.floor = ⌊a⌋ := by
  rw [Rat.floor_def', Rat.floor_def]

theorem round1_mono {x y : ℚ} (h : x ≤ y) : round1 x ≤ round1 y := by
  unfold round1
  rw [ratFloor_eq_intFloor, ratFloor_eq_intFloor]
  have h1 : (⌊x * 10 + 1/2⌋ : ℤ) ≤ ⌊y * 10 + 1/2⌋ := Int.floor_le_floor (by linarith)
  have h2 : ((⌊x * 10 + 1/2⌋ : ℤ) : ℚ) ≤ ((⌊y * 10 + 1/2⌋ : ℤ) : ℚ) := by exact_mod_cast h1
  linarith

theorem round1_zero : round1 0 = 0 := by with_unfolding_all decide

theorem round1_hundred : round1 100 = 100 := by with_unfolding_all decide

theorem round1_nonneg {x : ℚ} (h : 0 ≤ x) : 0 ≤ round1 x := by
  have := round1_mono h
  rwa [round1_zero] at this

theorem round1_le_hundred {x : ℚ} (h : x ≤ 100) : round1 x ≤ 100 := by
  have := round1_mono h
  rwa [round1_hundred] at this

theorem recentStreakOf_eq_takeWhile (logs : List WorkoutLog) :
    recentStreakOf logs = (logs.takeWhile (fun l => l.completed)).length := by
  induction logs with
  | nil => rfl
  | cons a t ih =>
    by_cases h : a.completed <;> simp [recentStreakOf, List.takeWhile_cons, h, ih]

theorem recentStreakOf_le_completed (logs : List WorkoutLog) :
    recentStreakOf logs ≤ (logs.filter (fun l => l.completed)).length := by
  induction logs with
  | nil => simp [recentStreakOf]
  | cons a t ih =>
    by_cases h : a.completed <;> simp [recentStreakOf, List.filter_cons, h]
    omega

/-! ## C2: current streak -/

/-- C2: for every list of workout-log entries (ordered newest first), the
workout summary recentStreak is the length of the longest prefix of entries
marked completed, i.e. the count of consecutive completed entries from the
first entry stopping at the first incomplete one; and on the concrete logs
done, done, not done, done the streak is 2. -/
theorem C2_recent_streak :
    (∀ logs : List WorkoutLog,
      (summarizeWorkouts logs).recentStreak =
        (logs.takeWhile (fun l => l.completed)).length) ∧
    (summarizeWorkouts
      [⟨some "Week 1", true⟩, ⟨some "Week 1", true⟩,
       ⟨some "Week 1", false⟩, ⟨some "Week 1", true⟩]).recentStreak = 2 := by
  constructor
  · intro logs
    unfold summarizeWorkouts
    by_cases h : logs.isEmpty
    · rw [if_pos h]
      rw [List.isEmpty_iff] at h
      subst h
      rfl
    · rw [if_neg h]
      exact recentStreakOf_eq_takeWhile logs
  · rfl

/-! ## C4: progress summary weight delta -/

/-- C4: for a non-empty entry list whose first and last entries carry numeric
weights, weightDelta is the last weight minus the first weight rounded to one
decimal; weights 80, 79, 78 give -2.0; and the empty list yields the all-null
summary. -/
theorem C4_weight_delta :
    (∀ (entries : List ProgressEntry) (eFirst eLast : ProgressEntry) (s l : ℚ),
        entries.head? = some eFirst → entries.getLast? = some eLast →
        eFirst.weight = some s → eLast.weight = some l →
        (summarizeProgress entries).weightDelta = some (round1 (l - s))) ∧
    summarizeProgress [] = ⟨none, none, none, none, none⟩ ∧
    (summarizeProgress
      [⟨some 80, none, none⟩, ⟨some 79, none, none⟩,
       ⟨some 78, none, none⟩]).weightDelta = some (-2) := by
  refine ⟨?_, rfl, ?_⟩
  · intro entries eFirst eLast s l hHead hLast hs hl
    match entries with
    | [] => simp at hHead
    | e :: rest =>
      rw [List.head?_cons, Option.some_inj] at hHead
      rw [List.getLast?_eq_getLast _ (List.cons_ne_nil e rest), Option.some_inj] at hLast
      subst hHead
      subst hLast
      simp only [summarizeProgress, hs, hl]
  · have h2 : round1 ((78 : ℚ) - 80) = -2 := by with_unfolding_all decide
    simp only [summarizeProgress]
    rw [show ((([⟨some 80, none, none⟩, ⟨some 79, none, none⟩,
      ⟨some 78, none, none⟩] : List ProgressEntry).getLast
      (List.cons_ne_nil _ _)).weight) = some 78 from rfl]
    simp [h2]

/-- Witness for C4 at the concrete three-entry list with weights 80, 79, 78. -/
theorem C4_weight_delta_witness :
    (summarizeProgress
      [⟨some 80, none, none⟩, ⟨some 79, none, none⟩,
       ⟨some 78, none, none⟩]).weightDelta = some (round1 (78 - 80)) :=
  C4_weight_delta.1
    [⟨some 80, none, none⟩, ⟨some 79, none, none⟩, ⟨some 78, none, none⟩]
    ⟨some 80, none, none⟩ ⟨some 78, none, none⟩ 80 78 rfl rfl rfl rfl

/-! ## C9: workout summary invariants -/

theorem bumpWeek_totals (acc : List (String × ℕ × ℕ)) (key : String) (c : Bool) :
    ((bumpWeek acc key c).map (fun x => x.2.1)).sum =
      (acc.map (fun x => x.2.1)).sum + 1 := by
  induction acc with
  | nil => cases c <;> simp [bumpWeek]
  | cons a t ih =>
    obtain ⟨k, tt, cc⟩ := a
    by_cases h : k = key <;> simp [bumpWeek, h, ih] <;> omega

theorem bumpWeek_completed (acc : List (String × ℕ × ℕ)) (key : String) (c : Bool) :
    ((bumpWeek acc key c).map (fun x => x.2.2)).sum =
      (acc.map (fun x => x.2.2)).sum + (if c then 1 else 0) := by
  induction acc with
  | nil => cases c <;> simp [bumpWeek]
  | cons a t ih =>
    obtain ⟨k, tt, cc⟩ := a
    by_cases h : k = key <;> cases c <;> simp [bumpWeek, h, ih] <;> omega

theorem foldl_bumpWeek_totals (logs : List WorkoutLog) :
    ∀ acc : List (String × ℕ × ℕ),
      (((logs.foldl (fun acc log =>
          bumpWeek acc (log.weekLabel.getD "Recent") log.completed) acc)).map
        (fun x => x.2.1)).sum = (acc.map (fun x => x.2.1)).sum + logs.length := by
  induction logs with
  | nil => intro acc; simp
  | cons a t ih =>
    intro acc
    rw [List.foldl_cons, ih, bumpWeek_totals]
    simp
    omega

theorem foldl_bumpWeek_completed (logs : List WorkoutLog) :
    ∀ acc : List (String × ℕ × ℕ),
      (((logs.foldl (fun acc log =>
          bumpWeek acc (log.weekLabel.getD "Recent") log.completed) acc)).map
        (fun x => x.2.2)).sum =
      (acc.map (fun x => x.2.2)).sum +
        (logs.filter (fun l => l.completed)).length := by
  induction logs with
  | nil => intro acc; simp
  | cons a t ih =>
    intro acc
    rw [List.foldl_cons, ih, bumpWeek_completed]
    cases h : a.completed
    · simp [List.filter_cons, h]
    · simp [List.filter_cons, h]
      omega

/-- C9: for every log list the workout summary satisfies the counting
invariants: the streak never exceeds the completed count, which never exceeds
the total count; the completion rate is a percentage between 0 and 100; and
the per-week breakdown partitions the sessions, so its totals sum to
totalSessions and its completed counts sum to completedSessions. -/
theorem C9_workout_summary_invariants :
    ∀ logs : List WorkoutLog,
      (summarizeWorkouts logs).recentStreak ≤ (summarizeWorkouts logs).completedSessions ∧
      (summarizeWorkouts logs).completedSessions ≤ (summarizeWorkouts logs).totalSessions ∧
      0 ≤ (summarizeWorkouts logs).completionRate ∧
      (summarizeWorkouts logs).completionRate ≤ 100 ∧
      (((summarizeWorkouts logs).weekBreakdown.map (fun r => r.total)).sum =
        (summarizeWorkouts logs).totalSessions) ∧
      (((summarizeWorkouts logs).weekBreakdown.map (fun r => r.completed)).sum =
        (summarizeWorkouts logs).completedSessions) := by
  intro logs
  by_cases h : logs.isEmpty
  · unfold summarizeWorkouts
    rw [if_pos h]
    norm_num
  · have hpos : 0 < logs.length := by
      cases logs with
      | nil => simp at h
      | cons a t => simp
    have hsum : summarizeWorkouts logs =
        ⟨logs.length, (logs.filter (fun log => log.completed)).length,
         if 0 < logs.length then
           round1 ((((logs.filter (fun log => log.completed)).length : ℚ) /
             (logs.length : ℚ)) * 100) else 0,
         recentStreakOf logs,
         (weekStats logs).map (fun x =>
           { weekLabel := x.1, total := x.2.1, completed := x.2.2,
             completionRate :=
               if 0 < x.2.1 then round1 (((x.2.2 : ℚ) / (x.2.1 : ℚ)) * 100)
               else 0 })⟩ := by
      unfold summarizeWorkouts
      rw [if_neg h]
    rw [hsum]
    have hfle : (logs.filter (fun log => log.completed)).length ≤ logs.length :=
      List.length_filter_le _ _
    have hrate : 0 ≤ (((logs.filter (fun log => log.completed)).length : ℚ) /
        (logs.length : ℚ)) * 100 ∧
        (((logs.filter (fun log => log.completed)).length : ℚ) /
        (logs.length : ℚ)) * 100 ≤ 100 := by
      have hl : (0 : ℚ) < (logs.length : ℚ) := by exact_mod_cast hpos
      have hc : ((logs.filter (fun log => log.completed)).length : ℚ) ≤
          (logs.length : ℚ) := by exact_mod_cast hfle
      have hc0 : (0 : ℚ) ≤ ((logs.filter (fun log => log.completed)).length : ℚ) := by
        positivity
      constructor
      · positivity
      · rw [div_mul_eq_mul_div, div_le_iff₀ hl]
        nlinarith
    refine ⟨recentStreakOf_le_completed logs, hfle, ?_, ?_, ?_, ?_⟩
    · simp only [if_pos hpos]
      exact round1_nonneg hrate.1
    · simp only [if_pos hpos]
      exact round1_le_hundred hrate.2
    · simp only [List.map_map, Function.comp_def]
      unfold weekStats
      simpa using foldl_bumpWeek_totals logs []
    · simp only [List.map_map, Function.comp_def]
      unfold weekStats
      simpa using foldl_bumpWeek_completed logs []

/-! ## C3: profile sanitizer -/

theorem parseUserProfile_error_of {raw : RawProfile} (h : profileIssues raw ≠ []) :
    parseUserProfile raw = .error (profileIssues raw) := by
  unfold parseUserProfile
  rcases hg : raw.goal with _ | g <;> rcases hh : raw.height with _ | hv <;>
    rcases hw : raw.weight with _ | wv <;> simp [hg, hh, hw]
  intro hempty
  exact absurd hempty h


theorem profileIssues_ne_nil {raw : RawProfile}
    (h : checkPositiveNumber "height" raw.height ≠ [] ∨
         checkPositiveNumber "weight" raw.weight ≠ [] ∨
         checkBodyFat raw.bodyFat ≠ []) :
    profileIssues raw ≠ [] := by
  intro hall
  rw [profileIssues] at hall
  simp only [List.append_eq_nil] at hall
  rcases h with h | h | h <;> tauto

/-- C3: sanitizing fails whenever height or weight is missing or not
positive; a bodyFat between 0 and 100 passes the bodyFat bound check of the
schema; and a profile carrying bodyFat 150 always fails validation. -/
theorem C3_profile_sanitizer :
    (∀ raw : RawProfile,
        (raw.height = none ∨ raw.weight = none ∨
         (∃ h, raw.height = some h ∧ h ≤ 0) ∨
         (∃ w, raw.weight = some w ∧ w ≤ 0)) →
        ∃ issues, sanitizeProfileNode raw = .error issues ∧ issues ≠ []) ∧
    (∀ b : ℚ, 0 ≤ b → b ≤ 100 → checkBodyFat (some b) = []) ∧
    (∀ raw : RawProfile, raw.bodyFat = some 150 →
        ∃ issues, sanitizeProfileNode raw = .error issues ∧ issues ≠ []) := by
  refine ⟨?_, ?_, ?_⟩
  · intro raw hbad
    have hne : profileIssues
        { raw with
          goal := some ((raw.goal.getD "weightLoss").trim)
          healthConditions := trimToUndefined raw.healthConditions
          availableEquipment := trimToUndefined raw.availableEquipment } ≠ [] := by
      apply profileIssues_ne_nil
      rcases hbad with hh | hw | ⟨hval, hsome, hle⟩ | ⟨wval, wsome, wle⟩
      · exact Or.inl (by simp [checkPositiveNumber, hh])
      · exact Or.inr (Or.inl (by simp [checkPositiveNumber, hw]))
      · exact Or.inl (by simp [checkPositiveNumber, hsome, not_lt.mpr hle])
      · exact Or.inr (Or.inl (by simp [checkPositiveNumber, wsome, not_lt.mpr wle]))
    exact ⟨_, parseUserProfile_error_of hne, hne⟩
  · intro b h0 h100
    simp [checkBodyFat, h0, h100]
  · intro raw hbf
    have hne : profileIssues
        { raw with
          goal := some ((raw.goal.getD "weightLoss").trim)
          healthConditions := trimToUndefined raw.healthConditions
          availableEquipment := trimToUndefined raw.availableEquipment } ≠ [] := by
      apply profileIssues_ne_nil
      refine Or.inr (Or.inr ?_)
      simp only [hbf, checkBodyFat]
      norm_num
    exact ⟨_, parseUserProfile_error_of hne, hne⟩

/-- Witness for C3: a profile with no height is rejected, bodyFat 50 passes
the bound check, and a profile with bodyFat 150 is rejected. -/
theorem C3_profile_sanitizer_witness :
    (∃ issues, sanitizeProfileNode
        { goal := some "weightLoss", height := none, weight := some 80,
          bodyFat := none, healthConditions := none,
          workoutPreference := none, availableEquipment := none } =
      .error issues ∧ issues ≠ []) ∧
    checkBodyFat (some 50) = [] ∧
    (∃ issues, sanitizeProfileNode
        { goal := some "weightLoss", height := some 175, weight := some 80,
          bodyFat := some 150, healthConditions := none,
          workoutPreference := none, availableEquipment := none } =
      .error issues ∧ issues ≠ []) :=
  ⟨C3_profile_sanitizer.1 _ (Or.inl rfl),
   C3_profile_sanitizer.2.1 50 (by norm_num) (by norm_num),
   C3_profile_sanitizer.2.2 _ rfl⟩

/-! ## C5: fitness plan schema -/

theorem validFitnessPlan_facts {p : FitnessPlan} (h : validFitnessPlan p = true) :
    1 ≤ p.workoutPlan.length ∧ 1 ≤ p.dietPlan.length ∧
    ∀ d ∈ p.workoutPlan, validWorkoutDay d = true := by
  simp only [validFitnessPlan, Bool.and_eq_true, decide_eq_true_eq,
    List.all_eq_true] at h
  exact ⟨h.1.1.1, h.1.2, h.1.1.2⟩

theorem validWorkoutDay_exercises {d : WorkoutDay} (h : validWorkoutDay d = true) :
    1 ≤ d.exercises.length := by
  simp only [validWorkoutDay, Bool.and_eq_true, decide_eq_true_eq] at h
  exact h.1.2

/-- C5: the plan schema rejects an empty workoutPlan and rejects any plan one
of whose workout days has no exercises; it accepts the sample plan whose diet
days carry all required fields; consequently every accepted plan has at least
one workout day, at least one diet day, and only non-empty exercise lists. -/
theorem C5_fitness_plan_schema :
    (∀ p : FitnessPlan, p.workoutPlan = [] → validFitnessPlan p = false) ∧
    (∀ (p : FitnessPlan) (d : WorkoutDay), d ∈ p.workoutPlan →
        d.exercises = [] → validFitnessPlan p = false) ∧
    validFitnessPlan samplePlan = true ∧
    (∀ p : FitnessPlan, validFitnessPlan p = true →
        p.workoutPlan ≠ [] ∧ p.dietPlan ≠ [] ∧
        ∀ d ∈ p.workoutPlan, d.exercises ≠ []) := by
  refine ⟨?_, ?_, by decide, ?_⟩
  · intro p h
    simp [validFitnessPlan, h]
  · intro p d hd hex
    cases hval : validFitnessPlan p with
    | false => rfl
    | true =>
      obtain ⟨-, -, hall⟩ := validFitnessPlan_facts hval
      have := validWorkoutDay_exercises (hall d hd)
      rw [hex] at this
      simp at this
  · intro p hval
    obtain ⟨hw, hd, hall⟩ := validFitnessPlan_facts hval
    refine ⟨?_, ?_, ?_⟩
    · exact List.ne_nil_of_length_pos (by omega)
    · exact List.ne_nil_of_length_pos (by omega)
    · intro d hdm
      have := validWorkoutDay_exercises (hall d hdm)
      exact List.ne_nil_of_length_pos (by omega)

/-- Witness for C5 discharging the universally quantified rejection parts at
concrete plans: the empty-workout plan, the plan with an exercise-free day,
and the accepted sample plan. -/
theorem C5_fitness_plan_schema_witness :
    validFitnessPlan { workoutPlan := [], dietPlan := [sampleDietDay] } = false ∧
    validFitnessPlan
      { workoutPlan := [{ day := "Day 1", focus := "Legs", exercises := [] }],
        dietPlan := [sampleDietDay] } = false ∧
    validFitnessPlan samplePlan = true ∧
    samplePlan.workoutPlan ≠ [] :=
  ⟨C5_fitness_plan_schema.1 _ rfl,
   C5_fitness_plan_schema.2.1 _ { day := "Day 1", focus := "Legs", exercises := [] }
     (by simp) rfl,
   C5_fitness_plan_schema.2.2.1,
   (C5_fitness_plan_schema.2.2.2 samplePlan C5_fitness_plan_schema.2.2.1).1⟩

/-! ## C7: prompt builder -/

theorem buildPrompt_decomp (p : UserProfile) :
    buildPromptNode p =
      "Primary Goal: " ++ ((goalLabels p.goal).getD p.goal) ++ "\n" ++ promptTail p := by
  simp [buildPromptNode, promptTail, String.intercalate, String.intercalate.go,
    String.append_assoc]

/-- C7: the prompt builder is a pure function, hence deterministic: equal
profiles give character-for-character equal prompts; and its first line is
resolved through the fixed goalLabels table, falling back to the raw goal
string whenever the goal is not one of the three known keys. -/
theorem C7_prompt_builder :
    (∀ p q : UserProfile, p = q → buildPromptNode p = buildPromptNode q) ∧
    (∀ p : UserProfile, goalLabels p.goal = none →
        buildPromptNode p = "Primary Goal: " ++ p.goal ++ "\n" ++ promptTail p) ∧
    (∀ (p : UserProfile) (label : String), goalLabels p.goal = some label →
        buildPromptNode p = "Primary Goal: " ++ label ++ "\n" ++ promptTail p) := by
  refine ⟨fun p q h => by rw [h], ?_, ?_⟩
  · intro p h
    rw [buildPrompt_decomp, h, Option.getD_none]
  · intro p label h
    rw [buildPrompt_decomp, h, Option.getD_some]

/-- Witness for C7: the recognised goal weightLoss resolves to the label
Weight Loss, the unrecognised goal crossfit falls back to itself, and the
builder is reflexively deterministic on the sample profile. -/
theorem C7_prompt_builder_witness :
    buildPromptNode sampleProfile =
      "Primary Goal: " ++ "Weight Loss" ++ "\n" ++ promptTail sampleProfile ∧
    buildPromptNode customGoalProfile =
      "Primary Goal: " ++ "crossfit" ++ "\n" ++ promptTail customGoalProfile ∧
    buildPromptNode sampleProfile = buildPromptNode sampleProfile :=
  ⟨C7_prompt_builder.2.2 sampleProfile "Weight Loss" rfl,
   C7_prompt_builder.2.1 customGoalProfile rfl,
   C7_prompt_builder.1 sampleProfile sampleProfile rfl⟩

/-! ## C6: empty chat message -/

/-- C6: an absent or empty message makes the chat endpoint answer with the
400 branch and makes the chat graph guard throw, whatever the memberId, the
history and the model function are; since the result is the same for every
model function, no model invocation influences it. -/
theorem C6_empty_message :
    ∀ (modelFn : Option String → List ChatMsg → ChatMsg) (memberId : Option String)
      (historyJson : JsonVal) (history : List ChatMsg) (message : Option String),
      message = none ∨ message = some "" →
      chatHandler modelFn memberId message historyJson =
        .badRequest "message is required" ∧
      runChatGraph modelFn memberId "" history =
        .error "message is required for chat." := by
  intro f mid hj hist msg hmsg
  rcases hmsg with rfl | rfl <;>
    exact ⟨by simp [chatHandler], by simp [runChatGraph]⟩

/-- Witness for C6 at a concrete model function, member, histories and the
absent message. -/
theorem C6_empty_message_witness :
    chatHandler (fun _ _ => ⟨"model", "hello"⟩) (some "m1") none
        (.arr [.str "junk"]) = .badRequest "message is required" ∧
    runChatGraph (fun _ _ => ⟨"model", "hello"⟩) (some "m1") ""
        [⟨"user", "earlier"⟩] = .error "message is required for chat." :=
  C6_empty_message (fun _ _ => ⟨"model", "hello"⟩) (some "m1")
    (.arr [.str "junk"]) [⟨"user", "earlier"⟩] none (Or.inl rfl)

/-! ## C10: history normalisation -/

theorem asStr_some {o : Option JsonVal} {s : String} (h : asStr o = some s) :
    o = some (.str s) := by
  match o with
  | none => simp [asStr] at h
  | some v => cases v <;> simp_all [asStr]

/-- C10: with a non-empty message the chat handler never rejects the request
because of the history: a non-array history is treated as the empty list,
and every message surviving normalisation comes from a truthy array item
whose role and content are strings, so entries missing either are dropped. -/
theorem C10_history_normalization :
    ∀ (modelFn : Option String → List ChatMsg → ChatMsg) (memberId : Option String)
      (m : String) (history : JsonVal), m ≠ "" →
      (∀ e, chatHandler modelFn memberId (some m) history ≠ .badRequest e) ∧
      ((∀ items, history ≠ .arr items) → normalizeHistory history = []) ∧
      (∀ items, history = .arr items →
        ∀ c ∈ normalizeHistory history,
          ∃ item ∈ items, truthy item = true ∧
            jsonField item "role" = some (.str c.role) ∧
            jsonField item "content" = some (.str c.content)) := by
  intro f mid m history hm
  refine ⟨?_, ?_, ?_⟩
  · intro e
    simp [chatHandler, runChatGraph, hm]
  · intro hnotarr
    cases history with
    | arr items => exact absurd rfl (hnotarr items)
    | null => rfl
    | bool b => rfl
    | num q => rfl
    | str s => rfl
    | obj fields => rfl
  · rintro items rfl c hc
    simp only [normalizeHistory, List.mem_filterMap] at hc
    obtain ⟨item, hmem, hsome⟩ := hc
    rw [List.mem_filter] at hmem
    obtain ⟨hitems, hcond⟩ := hmem
    simp only [Bool.and_eq_true, Option.isSome_iff_exists] at hcond
    obtain ⟨⟨htruthy, r, hr⟩, cstr, hcstr⟩ := hcond
    rw [hr, hcstr] at hsome
    simp only [Option.some_inj] at hsome
    refine ⟨item, hitems, htruthy, ?_, ?_⟩
    · rw [← hsome]
      exact asStr_some hr
    · rw [← hsome]
      exact asStr_some hcstr

/-- Witness for C10: a history mixing a valid entry, entries with missing or
non-string fields, and non-object entries is filtered down without any
rejection, and a string history normalises to the empty list. -/
theorem C10_history_normalization_witness :
    (∀ e, chatHandler (fun _ _ => ⟨"model", "ok"⟩) none (some "hi")
        (.arr [.obj [("role", .str "user"), ("content", .str "hey")],
               .obj [("role", .num 3), ("content", .str "x")],
               .str "loose", .null]) ≠ .badRequest e) ∧
    normalizeHistory (.str "not an array") = [] :=
  ⟨(C10_history_normalization (fun _ _ => ⟨"model", "ok"⟩) none "hi"
      (.arr [.obj [("role", .str "user"), ("content", .str "hey")],
             .obj [("role", .num 3), ("content", .str "x")],
             .str "loose", .null]) (by simp)).1,
   (C10_history_normalization (fun _ _ => ⟨"model", "ok"⟩) none "hi"
      (.str "not an array") (by simp)).2.1
     (fun items h => by simp at h)⟩

/-! ## C8: video search tool failure handling -/

/-- C8: when the upstream video search responds non-OK or with zero items,
the tool func hands the model a readable error string through the ordinary
return path; indeed for every API-key state and upstream outcome the func
returns normally (ok constructor), so a search failure never surfaces as a
chat-pipeline error and the turn can complete. -/
theorem C8_video_tool_failures :
    (∀ (key : String) (status : ℕ) (text : String),
        searchVideosToolFunc (some key) (.notOk status text) =
          .ok ("YouTube search failed (" ++ toString status ++ "): " ++ text)) ∧
    (∀ key : String, searchVideosToolFunc (some key) (.okPayload []) =
        .ok "no results, try another keyword") ∧
    (∀ (apiKey : Option String) (upstream : UpstreamResult),
        ∃ s, searchVideosToolFunc apiKey upstream = .ok s) := by
  refine ⟨fun key status text => rfl, fun key => rfl, ?_⟩
  intro apiKey upstream
  cases apiKey with
  | none => exact ⟨_, rfl⟩
  | some key =>
    cases upstream with
    | notOk status text => exact ⟨_, rfl⟩
    | okPayload items =>
      by_cases h : items.isEmpty <;>
        simp [searchVideosToolFunc, searchExerciseVideos, h]

/-! ## C1: persistence failure during plan generation -/

/-- C1 counterexample: a run in which sanitizing, prompt building and the
completion all succeed but the durable write fails does not return the
generated plan; the persistence error is what the caller sees. -/
theorem C1_counterexample :
    runPlanGraph "m1" sampleRawProfile (.ok samplePlan) (.error "write failed") =
      .error (.persistence "write failed") ∧
    runPlanGraph "m1" sampleRawProfile (.ok samplePlan) (.error "write failed") ≠
      .ok samplePlan := by
  constructor <;> with_unfolding_all decide

/-- C1 amended: whenever the first three stages succeed and the write fails,
runPlanGraph propagates the persistence error instead of returning the plan. -/
theorem C1_persistence_failure_propagates :
    ∀ (memberId : String) (raw : RawProfile) (profile : UserProfile)
      (plan : FitnessPlan) (msg : String),
      memberId ≠ "" → sanitizeProfileNode raw = .ok profile →
      validFitnessPlan plan = true →
      runPlanGraph memberId raw (.ok plan) (.error msg) =
        .error (.persistence msg) := by
  intro mid raw prof plan msg hm hs hv
  simp [runPlanGraph, hm, hs, generatePlanNode, hv, persistPlanNode]

/-- Witness for the amended C1 at the sample profile and sample plan. -/
theorem C1_persistence_failure_propagates_witness :
    runPlanGraph "m1" sampleRawProfile (.ok samplePlan) (.error "boom") =
      .error (.persistence "boom") :=
  C1_persistence_failure_propagates "m1" sampleRawProfile sampleProfile
    samplePlan "boom" (by decide)
    (by with_unfolding_all decide) (by decide)
